import Mathlib

/-!
Verification of the `salt/modules/restartcheck.py` core against its
natural-language specification.

Strings are modelled as lists of characters (`Str`); Python string
primitives (`startswith`, `endswith`, `find`, `strip` with a character
set, `splitlines`, substring containment) are given executable Lean
counterparts.  External collaborators (shell commands, the proc
filesystem, the package database, grains) are modelled as fields of an
environment structure `Env`; every function of the module is translated
from the Python source over that environment.
-/

/-- Paths, command outputs and names are Python strings, modelled as
character lists. -/
abbrev Str := List Char

/-- Shorthand turning a Lean string literal into the `Str` model. -/
def str (s : String) : Str := s.data

/-- Python `s.startswith(p)`. -/
def pyStartswith (s p : Str) : Bool := p.isPrefixOf s

/-- Python `s.endswith(p)`. -/
def pyEndswith (s p : Str) : Bool := p.isSuffixOf s

/-- Matcher for the reversed input of the anchored search
`\(path inode=[0-9]+\)$` (src line 56): last character is a close
paren, then at least one ASCII digit, then the reversed literal
`(path inode=`. -/
def inodeRevMatch : Str → Bool
  | [] => false
  | c :: rest =>
      c == ')' && !(rest.takeWhile Char.isDigit).isEmpty &&
        ((str "(path inode=").reverse).isPrefixOf (rest.dropWhile Char.isDigit)

/-- `re.compile(r"\(path inode=[0-9]+\)$").search(path)` is not `None`. -/
def inodeSuffixMatch (s : Str) : Bool := inodeRevMatch s.reverse

/-- Translation of `_valid_deleted_file` (src lines 43-116): mark the path
when it carries the deleted marker or the inode-suffix pattern, then let
each of the exclusion tests clear the flag. -/
def _valid_deleted_file (path : Str) : Bool :=
  let ret := false
  let ret := if pyEndswith path (str " (deleted)") then true else ret
  let ret := if inodeSuffixMatch path then true else ret
  -- We don't care about log files
  let ret := if pyStartswith path (str "/var/log/") || pyStartswith path (str "/var/local/log/") then false else ret
  -- Or about files under temporary locations
  let ret := if pyStartswith path (str "/var/run/") || pyStartswith path (str "/var/local/run/") then false else ret
  -- Or about files under /tmp
  let ret := if pyStartswith path (str "/tmp/") then false else ret
  -- Or about files under /dev/shm
  let ret := if pyStartswith path (str "/dev/shm/") then false else ret
  -- Or about files under /run
  let ret := if pyStartswith path (str "/run/") then false else ret
  -- Or about files under /drm
  let ret := if pyStartswith path (str "/drm") then false else ret
  -- Or about files under /var/tmp and /var/local/tmp
  let ret := if pyStartswith path (str "/var/tmp/") || pyStartswith path (str "/var/local/tmp/") then false else ret
  -- Or /dev/zero
  let ret := if pyStartswith path (str "/dev/zero") then false else ret
  -- Or /dev/pts (used by gpm)
  let ret := if pyStartswith path (str "/dev/pts/") then false else ret
  -- Or /usr/lib/locale
  let ret := if pyStartswith path (str "/usr/lib/locale/") then false else ret
  -- Skip files from the user's home directories
  let ret := if pyStartswith path (str "/home/") then false else ret
  -- Skip automatically generated files
  let ret := if pyEndswith path (str "icon-theme.cache") then false else ret
  -- Skip font files
  let ret := if pyStartswith path (str "/var/cache/fontconfig/") then false else ret
  -- Skip Nagios Spool
  let ret := if pyStartswith path (str "/var/lib/nagios3/spool/") then false else ret
  -- Skip nagios spool files
  let ret := if pyStartswith path (str "/var/lib/nagios3/spool/checkresults/") then false else ret
  -- Skip Postgresql files
  let ret := if pyStartswith path (str "/var/lib/postgresql/") then false else ret
  -- Skip VDR lib files
  let ret := if pyStartswith path (str "/var/lib/vdr/") then false else ret
  -- Skip Aio files found in MySQL servers
  let ret := if pyStartswith path (str "/[aio]") then false else ret
  -- ignore files under /SYSV
  let ret := if pyStartswith path (str "/SYSV") then false else ret
  ret

/-- The prefix-exclusion tests of `_valid_deleted_file`, bundled for the
statement of the classifier property. -/
def underExclusion (path : Str) : Bool :=
  pyStartswith path (str "/var/log/") || pyStartswith path (str "/var/local/log/") ||
  pyStartswith path (str "/var/run/") || pyStartswith path (str "/var/local/run/") ||
  pyStartswith path (str "/tmp/") ||
  pyStartswith path (str "/dev/shm/") ||
  pyStartswith path (str "/run/") ||
  pyStartswith path (str "/drm") ||
  pyStartswith path (str "/var/tmp/") || pyStartswith path (str "/var/local/tmp/") ||
  pyStartswith path (str "/dev/zero") ||
  pyStartswith path (str "/dev/pts/") ||
  pyStartswith path (str "/usr/lib/locale/") ||
  pyStartswith path (str "/home/") ||
  pyStartswith path (str "/var/cache/fontconfig/") ||
  pyStartswith path (str "/var/lib/nagios3/spool/") ||
  pyStartswith path (str "/var/lib/nagios3/spool/checkresults/") ||
  pyStartswith path (str "/var/lib/postgresql/") ||
  pyStartswith path (str "/var/lib/vdr/") ||
  pyStartswith path (str "/[aio]") ||
  pyStartswith path (str "/SYSV")

theorem exists_cons_of_isPrefixOf {c : Char} {l r : Str}
    (h : (c :: l).isPrefixOf r = true) : ∃ t, r = c :: t := by
  cases r with
  | nil => simp [List.isPrefixOf] at h
  | cons b bs =>
    simp [List.isPrefixOf] at h
    exact ⟨bs, by rw [h.1]⟩

/-- Any path accepted by one of the two inclusion tests ends in a close
paren. -/
theorem marker_lastChar (path : Str)
    (h : pyEndswith path (str " (deleted)") = true ∨ inodeSuffixMatch path = true) :
    ∃ t, path.reverse = ')' :: t := by
  rcases h with h | h
  · unfold pyEndswith List.isSuffixOf at h
    have hrev : (str " (deleted)").reverse = ')' :: str "deteled( " := by decide
    rw [hrev] at h
    exact exists_cons_of_isPrefixOf h
  · unfold inodeSuffixMatch at h
    cases hr : path.reverse with
    | nil => rw [hr] at h; simp [inodeRevMatch] at h
    | cons c rest =>
      rw [hr] at h
      simp [inodeRevMatch] at h
      exact ⟨rest, by rw [h.1.1]⟩

/-- A path whose last character is a close paren never ends in
`icon-theme.cache`, so the icon-cache exclusion cannot fire on a marked
path. -/
theorem icon_exclusion_of_marker (path : Str)
    (h : pyEndswith path (str " (deleted)") = true ∨ inodeSuffixMatch path = true) :
    pyEndswith path (str "icon-theme.cache") = false := by
  obtain ⟨t, ht⟩ := marker_lastChar path h
  unfold pyEndswith List.isSuffixOf
  rw [ht]
  have hrev : (str "icon-theme.cache").reverse = 'e' :: str "hcac.emeht-noci" := by decide
  rw [hrev]
  simp [List.isPrefixOf]

/-- C1: a path carrying the deleted marker (or the inode-suffix pattern)
that falls under none of the exclusion prefixes is classified as a
candidate; a path under `/tmp/`, `/var/log/`, `/run/` or `/home/` is
rejected regardless of the marker. -/
theorem C1_path_classifier (path : Str) :
    (((pyEndswith path (str " (deleted)") = true ∨ inodeSuffixMatch path = true) →
      underExclusion path = false →
      _valid_deleted_file path = true)) ∧
    ((pyStartswith path (str "/tmp/") = true ∨ pyStartswith path (str "/var/log/") = true ∨
      pyStartswith path (str "/run/") = true ∨ pyStartswith path (str "/home/") = true) →
      _valid_deleted_file path = false) := by
  constructor
  · intro hmark hexcl
    have hicon := icon_exclusion_of_marker path hmark
    simp only [underExclusion, Bool.or_eq_false_iff] at hexcl
    obtain ⟨⟨⟨⟨⟨⟨⟨⟨⟨⟨⟨⟨⟨⟨⟨⟨⟨⟨⟨⟨h1, h2⟩, h3⟩, h4⟩, h5⟩, h6⟩, h7⟩, h8⟩, h9⟩, h10⟩,
      h11⟩, h12⟩, h13⟩, h14⟩, h15⟩, h16⟩, h17⟩, h18⟩, h19⟩, h20⟩, h21⟩ := hexcl
    rcases hmark with hm | hm <;>
      simp [_valid_deleted_file, hm, h1, h2, h3, h4, h5, h6, h7, h8, h9, h10,
        h11, h12, h13, h14, h15, h16, h17, h18, h19, h20, h21, hicon]
  · intro h
    rcases h with h | h | h | h <;> simp [_valid_deleted_file, h]

/-- Witness for C1: the two scenario paths from the specification. -/
theorem C1_path_classifier_witness :
    _valid_deleted_file (str "/usr/lib/libfoo.so.1 (deleted)") = true ∧
    _valid_deleted_file (str "/var/log/app.log (deleted)") = false := by
  constructor
  · exact (C1_path_classifier (str "/usr/lib/libfoo.so.1 (deleted)")).1
      (Or.inl (by decide)) (by decide)
  · exact (C1_path_classifier (str "/var/log/app.log (deleted)")).2
      (Or.inr (Or.inl (by decide)))

/-! ## The environment

All interaction with the operating system, the package manager and the
salt collaborator functions is captured in one structure.  The three
NILinuxRT platform probes (src lines 301-428) are bundles of shell and
filesystem interaction (`dumpimage`/`gunzip`/`strings` extraction, boot
symlink resolution, `md5sum` snapshots); their outcomes are taken as
environment inputs, with `none` standing for an uncaught exception. -/

/-- A deleted-file record `(processName, pid, path)`. -/
abbrev DRec := Str × Nat × Str

structure Env where
  /-- grain `os_family` -/
  os_family : Str
  /-- grain `os` -/
  os : Str
  /-- output of a shell command (`cmd.run`) -/
  cmd_run : Str → Str
  /-- `psutil.process_iter()` together with `proc.as_dict(...)`;
  `none` marks a process raising `psutil.NoSuchProcess` there -/
  procs : List (Option (Nat × Str))
  /-- opening `/proc/PID/maps` and listing `/proc/PID/fd/`;
  `none` marks an `OSError`/`IOError` on either -/
  maps_fd : Nat → Option (List Str × List Str)
  /-- `os.readlink`; `none` marks an `OSError` -/
  readlink : Str → Option Str
  /-- `os.path.isfile` -/
  isfile : Str → Bool
  /-- `os.path.isdir` -/
  isdir : Str → Bool
  /-- the files found by `os_walk(readlink, followlinks=True)`,
  already joined with their root directories -/
  walkFiles : Str → List Str
  /-- `os.path.exists` on a non-empty path -/
  path_exists : Str → Bool
  /-- `pkg.owner`; the empty string when ownership is unknown -/
  pkg_owner : Str → Str
  /-- the stdout lines (with trailing newline) of the package file-list
  query run through `subprocess.Popen` -/
  popen_lines : Str → List Str
  /-- `readlines()` of an opened text file; `none` marks an `IOError` -/
  file_lines : Str → Option (List Str)
  /-- `service.available` -/
  service_available : Str → Bool
  /-- result of the NILinuxRT kernel detector (src lines 308-347) -/
  nilrt_kernel : Option Str
  /-- result of `_kernel_modules_changed_nilrt` (src lines 377-389) -/
  nilrt_modules_changed : Str → Option Bool
  /-- result of `_sysapi_changed_nilrt` (src lines 392-428) -/
  nilrt_sysapi_changed : Option Bool
  /-- `system.get_reboot_required_witnessed` -/
  reboot_witnessed : Bool

/-- `os.path.exists`; the empty path (the NILinuxRT service-manager
sentinel) never exists. -/
def pathExists (env : Env) (p : Str) : Bool :=
  if p.isEmpty then false else env.path_exists p

/-- Decimal rendering of a pid (`six.text_type(pid)`). -/
def natStr (n : Nat) : Str := Nat.toDigits 10 n

/-! ## The process scanner (`_deleted_files`, src lines 119-181) -/

/-- Lowercase-hex character class `[\da-f]` (ASCII digits). -/
def isHexL (c : Char) : Bool := c.isDigit || ('a' ≤ c && c ≤ 'f')

/-- Consume one character satisfying a class, as in a single-character
regex class. -/
def expectSet (p : Char → Bool) : Str → Option Str
  | x :: t => if p x then some t else none
  | [] => none

/-- Consume a non-empty maximal run of characters of a class, as in a
greedy `+` whose follower is outside the class. -/
def takeWhile1 (p : Char → Bool) (s : Str) : Option Str :=
  if (s.takeWhile p).isEmpty then none else some (s.dropWhile p)

/-- The terminal `\n$` of the maps-line pattern: Python `$` also matches
just before a final newline, so the tail is one or two newlines; the
preceding `.+` group cannot contain a newline. -/
def stripFinalNewline (r : Str) : Option Str :=
  match r.reverse with
  | '\n' :: '\n' :: rest => if rest.contains '\n' then none else some rest.reverse
  | '\n' :: rest => if rest.contains '\n' then none else some rest.reverse
  | _ => none

/-- Run a sequence of deterministic token eaters left to right. -/
def chompSeq : List (Str → Option Str) → Str → Option Str
  | [], s => some s
  | f :: fs, s =>
    match f s with
    | none => none
    | some s2 => chompSeq fs s2

/-- The fixed-format head of the maps-line pattern of src lines 142-143
applied with `.match`, i.e. anchored at the start: hex range,
permission flags, offset and device.  Every repetition here is followed
by a character outside its class, so greedy matching needs no
backtracking. -/
def maplineChompFixed (line : Str) : Option Str :=
  chompSeq
    [takeWhile1 isHexL,
     expectSet (fun c => c = '-'),
     takeWhile1 isHexL,
     expectSet (fun c => c = ' '),
     expectSet (fun c => c = 'r' || c = '-'),
     expectSet (fun c => c = 'w' || c = '-'),
     expectSet (fun c => c = 'x' || c = '-'),
     expectSet (fun c => c = 's' || c = 'p' || c = '-'),
     expectSet (fun c => c = ' '),
     takeWhile1 isHexL,
     expectSet (fun c => c = ' '),
     expectSet isHexL,
     expectSet isHexL,
     expectSet (fun c => c = ':'),
     expectSet isHexL,
     expectSet isHexL,
     expectSet (fun c => c = ' ')] line

/-- Group 2 of the full maps-line pattern: after the fixed head come
the inode digits, optional spaces and the greedy path group, followed
by an optional deleted marker and the line terminator.  The greedy path
group always absorbs the deleted marker; when the path group would be
empty the engine backtracks one space, or else one inode digit, into
it. -/
def maplineParse (line : Str) : Option Str :=
  match maplineChompFixed line with
  | none => none
  | some s =>
    let ds := s.takeWhile Char.isDigit
    if ds.isEmpty then none else
    let r1 := s.dropWhile Char.isDigit
    let sp := r1.takeWhile (fun c => c = ' ')
    let r2 := r1.dropWhile (fun c => c = ' ')
    match stripFinalNewline r2 with
    | none => none
    | some body =>
      if !body.isEmpty then some body
      else if !sp.isEmpty then some [' ']
      else if 2 ≤ ds.length then (ds.getLast?).map (fun d => [d])
      else none

/-- Append a record unless it is already present
(`if val not in _deleted_files: _deleted_files.append(val)`). -/
def dedupAppend (acc : List DRec) (v : DRec) : List DRec :=
  if v ∈ acc then acc else acc ++ [v]

/-- The `/proc/PID/maps` probe (src lines 139-154): for each matched
line whose path group is non-empty and classified as a candidate,
record the path with its 10 trailing marker characters removed. -/
def processMaps (name : Str) (pid : Nat) (maplines : List Str) (acc : List DRec) : List DRec :=
  maplines.foldl (fun acc line =>
    match maplineParse line with
    | some path =>
        if !path.isEmpty then
          if _valid_deleted_file path then
            dedupAppend acc (name, pid, path.take (path.length - 10))
          else acc
        else acc
    | none => acc) acc

/-- The `/proc/PID/fd` probe (src lines 156-176): resolve each link;
regular files are classified directly, non-root directories are walked;
the first `OSError` abandons the remainder of this process's links. -/
def processFd (env : Env) (name : Str) (pid : Nat) (dirpath : Str) :
    List Str → List DRec → List DRec
  | [], acc => acc
  | link :: rest, acc =>
    match env.readlink (dirpath ++ link) with
    | none => acc
    | some rl =>
      let filenames :=
        if env.isfile rl then [rl]
        else if env.isdir rl && !(rl == str "/") then env.walkFiles rl
        else []
      let acc := filenames.foldl (fun acc fn =>
        if _valid_deleted_file fn then dedupAppend acc (name, pid, fn) else acc) acc
      processFd env name pid dirpath rest acc

/-- The per-process loop of `_deleted_files`: a `NoSuchProcess` during
attribute fetch skips the process; a failure to open the maps file or
the fd directory makes the whole scan return the failure signal. -/
def scanGo (env : Env) : List (Option (Nat × Str)) → List DRec → Option (List DRec)
  | [], acc => some acc
  | none :: rest, acc => scanGo env rest acc
  | some (pid, name) :: rest, acc =>
    match env.maps_fd pid with
    | none => none
    | some (maplines, listdir) =>
      let acc := processMaps name pid maplines acc
      let acc := processFd env name pid (str "/proc/" ++ natStr pid ++ str "/fd/") listdir acc
      scanGo env rest acc

/-- Translation of `_deleted_files` (src lines 119-181); `none` is the
`False` failure signal. -/
def _deleted_files (env : Env) : Option (List DRec) := scanGo env env.procs []

/-- A baseline environment in which nothing is running, nothing exists
and every probe fails; concrete scenarios override single fields. -/
def env0 : Env where
  os_family := str "Debian"
  os := str "Debian"
  cmd_run := fun _ => []
  procs := []
  maps_fd := fun _ => none
  readlink := fun _ => none
  isfile := fun _ => false
  isdir := fun _ => false
  walkFiles := fun _ => []
  path_exists := fun _ => false
  pkg_owner := fun _ => []
  popen_lines := fun _ => []
  file_lines := fun _ => none
  service_available := fun _ => false
  nilrt_kernel := none
  nilrt_modules_changed := fun _ => none
  nilrt_sysapi_changed := none
  reboot_witnessed := false

/-! ## C4: failure handling of the scanner -/

/-- A maps line held by the sample processes below. -/
def sampleMapline : Str :=
  str "00400000-00452000 r-xp 00000000 08:02 1234 /usr/lib/libfoo.so.1 (deleted)\n"

/-- Two processes; the first yields a record, the second's maps file
cannot be opened. -/
def envC4 : Env := { env0 with
  procs := [some (1, str "a"), some (2, str "b")]
  maps_fd := fun pid => if pid = 1 then some ([sampleMapline], []) else none }

/-- The same environment with the failing process absent. -/
def envC4solo : Env := { envC4 with procs := [some (1, str "a")] }

/-- C4 counterexample: process 2 of `envC4` disappears between
enumeration and inspection (its maps file can no longer be opened), yet
the scan returns the hard-failure signal instead of process 1's
record -- which the scan does deliver once process 2 is gone. -/
theorem C4_counterexample :
    _deleted_files envC4 = none ∧
    _deleted_files envC4solo = some [(str "a", 1, str "/usr/lib/libfoo.so.1")] := by
  constructor <;> rfl

/-- C4 (amended): a process that disappears during attribute fetch
(`psutil.NoSuchProcess`) is skipped and scanning continues, but
whenever any enumerated process's maps file or fd directory cannot be
opened the whole scan returns the failure signal. -/
theorem scanGo_fail (env : Env) (pid : Nat) (name : Str)
    (ps2 : List (Option (Nat × Str))) (hfd : env.maps_fd pid = none) :
    ∀ (ps1 : List (Option (Nat × Str))) (acc : List DRec),
      scanGo env (ps1 ++ some (pid, name) :: ps2) acc = none := by
  intro ps1
  induction ps1 with
  | nil =>
    intro acc
    simp [scanGo, hfd]
  | cons p ps ih =>
    intro acc
    cases p with
    | none =>
      simp only [List.cons_append, scanGo]
      exact ih acc
    | some pn =>
      obtain ⟨q, nm⟩ := pn
      simp only [List.cons_append, scanGo]
      cases hq : env.maps_fd q with
      | none => rfl
      | some md =>
        obtain ⟨mls, lds⟩ := md
        exact ih _

/-- C4 (amended): a process that disappears during attribute fetch
(`psutil.NoSuchProcess`) is skipped and scanning continues, but
whenever any enumerated process's maps file or fd directory cannot be
opened the whole scan returns the failure signal. -/
theorem C4_scan_failure_modes (env : Env) (pid : Nat) (name : Str)
    (ps1 ps2 rest : List (Option (Nat × Str))) (acc : List DRec) :
    (scanGo env (none :: rest) acc = scanGo env rest acc) ∧
    (env.maps_fd pid = none → env.procs = ps1 ++ some (pid, name) :: ps2 →
      _deleted_files env = none) := by
  constructor
  · rfl
  · intro hfd hprocs
    unfold _deleted_files
    rw [hprocs]
    exact scanGo_fail env pid name ps2 hfd ps1 []

/-- Witness for C4 (amended) at the concrete environments. -/
theorem C4_scan_failure_modes_witness :
    scanGo envC4 [none, some (1, str "a")] [] = scanGo envC4 [some (1, str "a")] [] ∧
    _deleted_files envC4 = none :=
  ⟨(C4_scan_failure_modes envC4 2 (str "b") [some (1, str "a")] [] [some (1, str "a")] []).1,
   (C4_scan_failure_modes envC4 2 (str "b") [some (1, str "a")] [] [some (1, str "a")] []).2
     (by rfl) (by rfl)⟩

/-! ## C9: deduplication of scanner output -/

theorem dedupAppend_nodup {acc : List DRec} {v : DRec} (h : acc.Nodup) :
    (dedupAppend acc v).Nodup := by
  unfold dedupAppend
  by_cases hv : v ∈ acc
  · simpa [hv]
  · simp [hv, List.nodup_append, h]

theorem foldl_preserve {α β : Type} {P : β → Prop} {f : β → α → β}
    (hf : ∀ b a, P b → P (f b a)) :
    ∀ (l : List α) (b : β), P b → P (l.foldl f b) := by
  intro l
  induction l with
  | nil => intro b hb; exact hb
  | cons x xs ih => intro b hb; exact ih _ (hf b x hb)

theorem processMaps_nodup (name : Str) (pid : Nat) (maplines : List Str)
    (acc : List DRec) (h : acc.Nodup) : (processMaps name pid maplines acc).Nodup := by
  unfold processMaps
  refine foldl_preserve (fun b line hb => ?_) maplines acc h
  cases maplineParse line with
  | none => simpa
  | some path =>
    by_cases hp : path.isEmpty <;> by_cases hv : _valid_deleted_file path <;>
      simp [hp, hv, hb, dedupAppend_nodup]

theorem processFd_nodup (env : Env) (name : Str) (pid : Nat) (dirpath : Str) :
    ∀ (links : List Str) (acc : List DRec), acc.Nodup →
      (processFd env name pid dirpath links acc).Nodup := by
  intro links
  induction links with
  | nil => intro acc h; exact h
  | cons link rest ih =>
    intro acc h
    unfold processFd
    cases env.readlink (dirpath ++ link) with
    | none => exact h
    | some rl =>
      refine ih _ (foldl_preserve (fun b fn hb => ?_) _ acc h)
      by_cases hv : _valid_deleted_file fn <;> simp [hv, hb, dedupAppend_nodup]

theorem scanGo_nodup (env : Env) :
    ∀ (l : List (Option (Nat × Str))) (acc : List DRec), acc.Nodup →
      ∀ res, scanGo env l acc = some res → res.Nodup := by
  intro l
  induction l with
  | nil =>
    intro acc h res hres
    simp only [scanGo, Option.some.injEq] at hres
    exact hres ▸ h
  | cons p rest ih =>
    intro acc h res hres
    cases p with
    | none => exact ih acc h res hres
    | some pn =>
      obtain ⟨pid, name⟩ := pn
      simp only [scanGo] at hres
      cases hq : env.maps_fd pid with
      | none => rw [hq] at hres; exact absurd hres (by simp)
      | some md =>
        obtain ⟨mls, lds⟩ := md
        rw [hq] at hres
        exact ih _ (processFd_nodup env name pid _ lds _
          (processMaps_nodup name pid mls acc h)) res hres

/-- C9: a successful scan never contains two identical
`(processName, pid, path)` records, across both probes and across
processes. -/
theorem C9_scan_dedup (env : Env) (res : List DRec)
    (h : _deleted_files env = some res) : res.Nodup :=
  scanGo_nodup env env.procs [] List.nodup_nil res h

/-- One process holding the sample deleted mapping. -/
def envC9 : Env := { env0 with
  procs := [some (3, str "p")]
  maps_fd := fun _ => some ([sampleMapline], []) }

/-- Witness for C9 at a scan that returns one record. -/
theorem C9_scan_dedup_witness :
    _deleted_files envC9 = some [(str "p", 3, str "/usr/lib/libfoo.so.1")] ∧
    List.Nodup [(str "p", 3, str "/usr/lib/libfoo.so.1")] :=
  ⟨by rfl, C9_scan_dedup envC9 _ (by rfl)⟩

/-! ## Python string helpers used by the kernel detectors -/

/-- Worker for `splitlines`, collecting the current line in reverse. -/
def splitlinesGo : Str → Str → List Str
  | [], acc => if acc.isEmpty then [] else [acc.reverse]
  | c :: t, acc =>
      if c = '\n' then acc.reverse :: splitlinesGo t []
      else splitlinesGo t (c :: acc)

/-- Python `s.splitlines()` for newline-terminated command output. -/
def pySplitlines (s : Str) : List Str := splitlinesGo s []

/-- Python `s.lstrip(set)`: drop leading characters belonging to the
character set. -/
def pyLstripSet (s set : Str) : Str := s.dropWhile (fun c => set.contains c)

/-- Python `s.rstrip(set)`: drop trailing characters belonging to the
character set. -/
def pyRstripSet (s set : Str) : Str :=
  (s.reverse.dropWhile (fun c => set.contains c)).reverse

/-- Python `s.strip(set)`. -/
def pyStripSet (s set : Str) : Str := pyRstripSet (pyLstripSet s set) set

/-- Python substring containment `small in big`. -/
def strContains : Str → Str → Bool
  | big, small =>
    match big with
    | [] => small.isEmpty
    | _ :: t => small.isPrefixOf big || strContains t small

/-- Python `s.rsplit(sep, 1)` for a one-character separator, succeeding
only when the separator occurs (otherwise the Python code's
`kernel_v[1]` raises `IndexError`). -/
def rsplit1 (s : Str) (sep : Char) : Option (Str × Str) :=
  if s.contains sep then
    let r := s.reverse
    some (((r.dropWhile (fun c => c ≠ sep)).drop 1).reverse,
          (r.takeWhile (fun c => c ≠ sep)).reverse)
  else none

/-! ## Kernel version detectors (src lines 242-347) -/

/-- The selection of src lines 256-259: `kernels[-2]`, falling back to
`kernels[0]` on `IndexError`; `none` when even that raises. -/
def debianPickKernel (kernels : List Str) : Option Str :=
  if 2 ≤ kernels.length then kernels[kernels.length - 2]?
  else kernels[0]?

/-- Translation of `_kernel_versions_debian` (src lines 242-277).
`rstrip`/`strip` take character sets, exactly as in the source. -/
def _kernel_versions_debian (env : Env) : Option (List Str) :=
  let kernel_get_selections := env.cmd_run (str "dpkg --get-selections linux-image-*")
  let kernels := pySplitlines kernel_get_selections
  match debianPickKernel kernels with
  | none => none
  | some kernel =>
    let kernel := pyRstripSet kernel (str "\t\tinstall")
    let kernel_get_version := env.cmd_run (str "apt-cache policy " ++ kernel)
    let kernel_versions :=
      match (pySplitlines kernel_get_version).find?
          (fun line => pyStartswith line (str "  Installed: ")) with
      | some line => [pyStripSet line (str "  Installed: ")]
      | none => []
    if env.os = str "Ubuntu" then
      match kernel_versions with
      | [] => none
      | kv :: _ =>
        match rsplit1 kv '.' with
        | none => none
        | some kvp =>
          some (kernel_versions ++
            [kvp.1 ++ str "-generic #" ++ kvp.2,
             kvp.1 ++ str "-lowlatency #" ++ kvp.2])
    else some kernel_versions

/-- Translation of `_kernel_versions_redhat` (src lines 280-298);
`none` when no line of the query output mentions a kernel package
(`kernels[0]` raises `IndexError`). -/
def _kernel_versions_redhat (env : Env) : Option (List Str) :=
  let kernel_get_last := env.cmd_run (str "rpm -q --last kernel")
  let kernels := (pySplitlines kernel_get_last).filter
    (fun line => strContains line (str "kernel-"))
  match kernels with
  | [] => none
  | k :: _ =>
    let kernel := k.takeWhile (fun c => c ≠ ' ')
    let kernel := pyStripSet kernel (str "kernel-")
    some [kernel]

/-- Translation of `_kernel_versions_nilrt` (src lines 308-347): the
detector itself is a bundle of shell and boot-filesystem probes
(`dumpimage`, `gunzip`, `strings` extraction or `/boot` symlink
resolution) whose outcome is the environment input
`Env.nilrt_kernel`; the function publishes it as a one-element list,
mirroring `kernel_versions.append(kernel)`. -/
def _kernel_versions_nilrt (env : Env) : Option (List Str) :=
  match env.nilrt_kernel with
  | none => none
  | some kernel => some [kernel]

/-- C8: on Debian-family systems the installed-kernel line is the
second-to-last line of the package-selections output, and the first
line when there is only one. -/
theorem C8_debian_kernel_selection (kernels : List Str) :
    (∀ (l : List Str) (a b : Str), kernels = l ++ [a, b] →
      debianPickKernel kernels = some a) ∧
    (∀ a : Str, kernels = [a] → debianPickKernel kernels = some a) := by
  constructor
  · rintro l a b rfl
    have hlen : (l ++ [a, b]).length = l.length + 2 := by simp
    unfold debianPickKernel
    rw [if_pos (by omega)]
    rw [hlen]
    have h2 : l.length + 2 - 2 = l.length := by omega
    rw [h2, List.getElem?_append_right (le_refl _)]
    simp
  · rintro a rfl
    rfl

/-- Witness for C8: three selection lines pick the middle one, a single
line picks itself. -/
theorem C8_debian_kernel_selection_witness :
    debianPickKernel [str "linux-image-a", str "linux-image-b", str "linux-image-c"] =
      some (str "linux-image-b") ∧
    debianPickKernel [str "linux-image-x"] = some (str "linux-image-x") :=
  ⟨(C8_debian_kernel_selection _).1 [str "linux-image-a"]
      (str "linux-image-b") (str "linux-image-c") rfl,
   (C8_debian_kernel_selection _).2 (str "linux-image-x") rfl⟩

/-! ## The orchestrator (`restartcheck`, src lines 431-606) -/

/-- Python `str.find` worker carrying the current index. -/
def pyFindAux (sub : Str) : Str → Nat → Int
  | [], i => if sub.isPrefixOf [] then (i : Int) else -1
  | s@(_ :: t), i => if sub.isPrefixOf s then (i : Int) else pyFindAux sub t (i + 1)

/-- Python `s.find(sub)`: first occurrence index, `-1` when absent. -/
def pyFind (s sub : Str) : Int := pyFindAux sub s 0

/-- One value of the `packages` dictionary. -/
structure PkgEntry where
  initscripts : List Str
  systemdservice : List Str
  processes : List Str
  process_name : Str
deriving DecidableEq, Inhabited

/-- The possible results of `restartcheck`: the error dictionary, a
report string, or the non-verbose package list. -/
inductive RCResult where
  | err (comment : Str)
  | str (s : Str)
  | lst (packages : List Str)
deriving DecidableEq

/-- Dictionary lookup on an insertion-ordered association list. -/
def alistLookup {α : Type} (l : List (Str × α)) (k : Str) : Option α :=
  match l.find? (fun p => p.1 == k) with
  | some p => some p.2
  | none => none

/-- In-place value update of a dictionary key, keeping insertion
order. -/
def alistUpdate {α : Type} (l : List (Str × α)) (k : Str) (f : α → α) : List (Str × α) :=
  l.map (fun p => if p.1 == k then (p.1, f p.2) else p)

/-- The condition of src lines 478-480: no kernel modules changed, no
System API change, no previously witnessed reboot requirement; `and` is
short-circuiting, `none` propagates an exception from the probes. -/
def nilrtNoRestart (env : Env) (kernel : Str) : Option Bool :=
  match env.nilrt_modules_changed kernel with
  | none => none
  | some true => some false
  | some false =>
    match env.nilrt_sysapi_changed with
    | none => none
    | some true => some false
    | some false => some (!env.reboot_witnessed)

/-- The kernel-comparison loop of src lines 472-485: `kernel_restart`
starts `True` and becomes `False` when an installed-kernel candidate is
a substring of `uname -a` (with the extra NILinuxRT change checks). -/
def kernelRestartCheck (env : Env) (kernel_current : Str) : List Str → Option Bool
  | [] => some true
  | kernel :: rest =>
    if strContains kernel_current kernel then
      if env.os_family = str "NILinuxRT" then
        match nilrtNoRestart env kernel with
        | none => none
        | some true => some false
        | some false => kernelRestartCheck env kernel_current rest
      else some false
    else kernelRestartCheck env kernel_current rest

/-- Argument normalization of src lines 489-499: a falsy argument is
replaced by the default list. -/
def normalizeListArg (arg : Option (List Str)) (dflt : List Str) : List Str :=
  match arg with
  | some l => if l.isEmpty then dflt else l
  | none => dflt

/-- Argument normalization of src lines 501-505 for the pid list. -/
def normalizePidArg (arg : Option (List Nat)) : List Nat :=
  match arg with
  | some l => if l.isEmpty then [] else l
  | none => []

/-- Mutable state of the record loop of src lines 513-538: the
`packages` dictionary, the ownership memoization and the (growing)
`excludepid` list. -/
structure BuildState where
  packages : List (Str × PkgEntry)
  owners_cache : List (Str × Str)
  excludepid : List Nat
deriving DecidableEq, Inhabited

/-- One iteration of the record loop (src lines 515-538) on a
`(name, pid, path)` record. -/
def processRecord (env : Env) (blacklist ignorelist : List Str)
    (st : BuildState) (r : DRec) : BuildState :=
  if r.2.2 ∈ blacklist ∨ r.2.1 ∈ st.excludepid then st
  else
    match env.readlink (str "/proc/" ++ natStr r.2.1 ++ str "/exe") with
    | none => { st with excludepid := st.excludepid ++ [r.2.1] }
    | some readlink =>
      let pc : Str × List (Str × Str) :=
        match alistLookup st.owners_cache readlink with
        | some p => (p, st.owners_cache)
        | none =>
          let p := env.pkg_owner readlink
          let p := if p.isEmpty then r.1 else p
          (p, st.owners_cache ++ [(readlink, p)])
      if !pc.1.isEmpty ∧ pc.1 ∉ ignorelist then
        let program := str "\t" ++ natStr r.2.1 ++ str " " ++ readlink ++
          str " (file: " ++ r.2.2 ++ str ")"
        match alistLookup st.packages pc.1 with
        | none =>
          { st with owners_cache := pc.2,
                    packages := st.packages ++ [(pc.1, ⟨[], [], [program], r.1⟩)] }
        | some entry =>
          if program ∉ entry.processes then
            { st with owners_cache := pc.2,
                      packages := alistUpdate st.packages pc.1
                        (fun e => { e with processes := e.processes ++ [program] }) }
          else { st with owners_cache := pc.2 }
      else { st with owners_cache := pc.2 }

/-- The full record loop of src lines 513-538. -/
def buildPackages (env : Env) (ignorelist blacklist : List Str)
    (excludepid : List Nat) (files : List DRec) : BuildState :=
  files.foldl (processRecord env blacklist ignorelist) ⟨[], [], excludepid⟩

/-- Processing of one package-file line (src lines 548-573): record an
init script, or a systemd unit that is not oneshot.  A unit line whose
`Type=oneshot` sits at column 0 is NOT treated as oneshot, because the
source tests `line.find('Type=oneshot') > 0`. -/
def processPkgPath (env : Env) (systemd systemd_folder : Str)
    (e : PkgEntry) (line : Str) : PkgEntry :=
  let pth := line.dropLast
  let e :=
    if pyStartswith pth (str "/etc/init.d/") && !pyEndswith pth (str ".sh") then
      { e with initscripts := e.initscripts ++ [pth.drop 12] }
    else e
  if pathExists env systemd && pyStartswith pth systemd_folder &&
      pyEndswith pth (str ".service") && pyFind pth (str ".wants") = -1 then
    match env.file_lines pth with
    | none => e
    | some servicelines =>
      let is_oneshot := servicelines.foldl
        (fun one line => if pyFind line (str "Type=oneshot") > 0 then true else one) false
      if !is_oneshot then
        { e with systemdservice := e.systemdservice ++ [pth.drop systemd_folder.length] }
      else e
  else e

/-- The package-file query loop of src lines 543-576. -/
def pkgQueryLoop (env : Env) (cmd_pkg_query systemd_folder systemd : Str)
    (pkgs : List (Str × PkgEntry)) : List (Str × PkgEntry) :=
  pkgs.map (fun pe =>
    (pe.1, (env.popen_lines (cmd_pkg_query ++ pe.1)).foldl
      (processPkgPath env systemd systemd_folder) pe.2))

/-- The name-based fallback loop of src lines 578-587. -/
def fallbackLoop (env : Env) (pkgs : List (Str × PkgEntry)) : List (Str × PkgEntry) :=
  pkgs.map (fun pe =>
    if pe.2.systemdservice.length = 0 ∧ pe.2.initscripts.length = 0 then
      if env.service_available pe.2.process_name then
        if pathExists env (str "/etc/init.d/" ++ pe.2.process_name) then
          (pe.1, { pe.2 with initscripts := pe.2.initscripts ++ [pe.2.process_name] })
        else
          (pe.1, { pe.2 with systemdservice := pe.2.systemdservice ++ [pe.2.process_name] })
      else pe
    else pe)

/-- The four accumulators of the bucketing loop of src lines 589-602. -/
structure Buckets where
  restartable : List Str
  nonrestartable : List Str
  restartinitcommands : List Str
  restartservicecommands : List Str
deriving DecidableEq, Inhabited

/-- The bucketing loop of src lines 594-602: packages with init scripts
get `service <name> restart` commands, packages with only systemd units
get `systemctl restart <name>` commands, the rest are
non-restartable. -/
def buildBuckets : List (Str × PkgEntry) → Buckets
  | [] => ⟨[], [], [], []⟩
  | pe :: rest =>
    let b := buildBuckets rest
    if pe.2.initscripts.length > 0 then
      ⟨pe.1 :: b.restartable, b.nonrestartable,
       (pe.2.initscripts.map (fun s => str "service " ++ s ++ str " restart")) ++
         b.restartinitcommands,
       b.restartservicecommands⟩
    else if pe.2.systemdservice.length > 0 then
      ⟨pe.1 :: b.restartable, b.nonrestartable, b.restartinitcommands,
       (pe.2.systemdservice.map (fun s => str "systemctl restart " ++ s)) ++
         b.restartservicecommands⟩
    else ⟨b.restartable, pe.1 :: b.nonrestartable, b.restartinitcommands,
          b.restartservicecommands⟩

/-- The per-package process listing of the verbose report
(src lines 219-222 and 235-238). -/
def pkgListing (packages : List (Str × PkgEntry)) (names : List Str) (ret : Str) : Str :=
  names.foldl (fun acc pkg =>
    ((alistLookup packages pkg).getD ⟨[], [], [], []⟩).processes.foldl
      (fun a program => a ++ program ++ str "\n")
      (acc ++ pkg ++ str ":\n")) ret

/-- Translation of `_format_output` (src lines 184-239). -/
def _format_output (kernel_restart : Bool) (packages : List (Str × PkgEntry))
    (verbose : Bool) (restartable nonrestartable restartservicecommands
    restartinitcommands : List Str) : RCResult :=
  if !verbose then
    .lst ((restartable ++ nonrestartable) ++
      (if kernel_restart then [str "System restart required."] else []))
  else
    let ret := if kernel_restart then str "System restart required.\n\n" else []
    let ret :=
      if packages.length ≠ 0 then
        ret ++ str "Found " ++ natStr packages.length ++
          str " processes using old versions of upgraded files.\n" ++
          str "These are the packages:\n"
      else ret
    let ret :=
      if restartable.length > 0 then
        let ret := ret ++ str "Of these, " ++ natStr restartable.length ++
          str " seem to contain systemd service definitions or init scripts " ++
          str "which can be used to restart them:\n"
        let ret := pkgListing packages restartable ret
        let ret :=
          if restartservicecommands.length > 0 then
            ret ++ str "\n\nThese are the systemd services:\n" ++
              List.intercalate (str "\n") restartservicecommands
          else ret
        let ret :=
          if restartinitcommands.length > 0 then
            ret ++ str "\n\nThese are the initd scripts:\n" ++
              List.intercalate (str "\n") restartinitcommands
          else ret
        ret
      else ret
    let ret :=
      if nonrestartable.length > 0 then
        let ret := ret ++ str "\n\nThese processes " ++ natStr nonrestartable.length ++
          str " do not seem to have an associated init script to restart them:\n"
        pkgListing packages nonrestartable ret
      else ret
    .str ret

/-- The per-family setup of src lines 453-469: package query command,
systemd unit folder, service-manager binary and kernel detector;
`none` selects the unsupported-platform error.  On NILinuxRT the unit
folder is never read because the service-manager path is empty and
`os.path.exists('')` is `False`. -/
def famParams (env : Env) : Option (Str × Str × Str × Option (List Str)) :=
  if env.os_family = str "Debian" then
    some (str "dpkg-query --listfiles ", str "/lib/systemd/system/",
          str "/bin/systemd", _kernel_versions_debian env)
  else if env.os_family = str "RedHat" then
    some (str "repoquery -l ", str "/usr/lib/systemd/system/",
          str "/usr/bin/systemctl", _kernel_versions_redhat env)
  else if env.os_family = str "NILinuxRT" then
    some (str "opkg files ", [], [], _kernel_versions_nilrt env)
  else none

/-- The body of `restartcheck` after family selection
(src lines 471-606); `none` models an uncaught exception from the
kernel detectors or change probes. -/
def restartcheckCore (env : Env) (cmd_pkg_query systemd_folder systemd : Str)
    (kvs : Option (List Str)) (ignorelist blacklist : Option (List Str))
    (excludepid : Option (List Nat)) (verbose : Bool) : Option RCResult :=
  match kvs with
  | none => none
  | some kernel_versions =>
    match kernelRestartCheck env (env.cmd_run (str "uname -a")) kernel_versions with
    | none => none
    | some kernel_restart =>
      let ignorelist := normalizeListArg ignorelist [str "screen", str "systemd"]
      let blacklist := normalizeListArg blacklist []
      let excludepid := normalizePidArg excludepid
      match _deleted_files env with
      | none =>
        some (.err (str "Could not get list of processes. (Do you have root access?)"))
      | some dfiles =>
        let st := buildPackages env ignorelist blacklist excludepid dfiles
        if st.packages.length = 0 ∧ kernel_restart = false then
          some (.str (str "No packages seem to need to be restarted."))
        else
          let packages := fallbackLoop env
            (pkgQueryLoop env cmd_pkg_query systemd_folder systemd st.packages)
          let b := buildBuckets packages
          some (_format_output kernel_restart packages verbose
            b.restartable b.nonrestartable b.restartservicecommands b.restartinitcommands)

/-- Translation of `restartcheck` (src lines 431-606). -/
def restartcheck (env : Env) (ignorelist blacklist : Option (List Str))
    (excludepid : Option (List Nat)) (verbose : Bool) : Option RCResult :=
  match famParams env with
  | none =>
    some (.err (str "Only available on Debian, Red Hat and NI Linux Real-Time based systems."))
  | some fp => restartcheckCore env fp.1 fp.2.1 fp.2.2.1 fp.2.2.2
      ignorelist blacklist excludepid verbose

/-! ## C5: blacklist and excludepid are strict filters -/

/-- A record caught by the filter of src line 517 leaves the loop state
untouched. -/
theorem processRecord_skip (env : Env) (bl ig : List Str) (st : BuildState) (r : DRec)
    (h : r.2.2 ∈ bl ∨ r.2.1 ∈ st.excludepid) :
    processRecord env bl ig st r = st := by
  unfold processRecord
  rw [if_pos h]

/-- The loop only ever appends to `excludepid` (src line 522). -/
theorem processRecord_excl_sub (env : Env) (bl ig : List Str) (st : BuildState) (r : DRec) :
    st.excludepid ⊆ (processRecord env bl ig st r).excludepid := by
  unfold processRecord
  repeat' (first | split | dsimp only)
  all_goals first
    | exact fun a ha => ha
    | exact List.subset_append_left _ _

theorem foldl_filter_eq (env : Env) (bl ig : List Str) (excl0 : List Nat) :
    ∀ (files : List DRec) (st : BuildState), excl0 ⊆ st.excludepid →
      (files.filter (fun r => decide (r.2.2 ∉ bl ∧ r.2.1 ∉ excl0))).foldl
          (processRecord env bl ig) st =
        files.foldl (processRecord env bl ig) st := by
  intro files
  induction files with
  | nil => intro st _; rfl
  | cons r fs ih =>
    intro st hsub
    by_cases hk : r.2.2 ∉ bl ∧ r.2.1 ∉ excl0
    · rw [List.filter_cons_of_pos (by simpa using hk), List.foldl_cons, List.foldl_cons]
      exact ih (processRecord env bl ig st r)
        (hsub.trans (processRecord_excl_sub env bl ig st r))
    · have hk2 : r.2.2 ∈ bl ∨ r.2.1 ∈ excl0 := by
        by_contra hcon
        push_neg at hcon
        exact hk ⟨hcon.1, hcon.2⟩
      have hskip : processRecord env bl ig st r = st :=
        processRecord_skip env bl ig st r (hk2.imp id (fun hx => hsub hx))
      rw [List.filter_cons_of_neg (by simpa using hk), List.foldl_cons, hskip]
      exact ih st hsub

/-- C5: removing from the scanner output every record whose path is
blacklisted or whose pid is excluded changes nothing in the state built
by the record loop -- such records never contribute a package entry, so
they never reach the final plan or report. -/
theorem C5_strict_filters (env : Env) (ignorelist blacklist : List Str)
    (excludepid : List Nat) (files : List DRec) :
    buildPackages env ignorelist blacklist excludepid
        (files.filter (fun r => decide (r.2.2 ∉ blacklist ∧ r.2.1 ∉ excludepid))) =
      buildPackages env ignorelist blacklist excludepid files := by
  unfold buildPackages
  exact foldl_filter_eq env blacklist ignorelist excludepid files
    ⟨[], [], excludepid⟩ (fun a ha => ha)

/-! ## C3: the `Type=oneshot` scan -/

/-- Environment for the oneshot scenario: the service manager exists
and the `foo.service` unit file is a plain oneshot unit with the
directive at column 0, as systemd syntax puts it. -/
def envC3 : Env := { env0 with
  path_exists := fun p => p == str "/bin/systemd"
  file_lines := fun p =>
    if p = str "/lib/systemd/system/foo.service" then
      some [str "[Service]\n", str "Type=oneshot\n"]
    else none }

/-- C3 failing input: the unit file body contains a `Type=oneshot` line
at column 0, yet the unit is recorded as a restartable systemd service,
because src line 566 tests `line.find('Type=oneshot') > 0` and `find`
returns 0 here. -/
theorem C3_oneshot_at_column_zero :
    (processPkgPath envC3 (str "/bin/systemd") (str "/lib/systemd/system/")
        ⟨[], [], [], str "foo"⟩ (str "/lib/systemd/system/foo.service\n")).systemdservice =
      [str "foo.service"] ∧
    pyFind (str "Type=oneshot\n") (str "Type=oneshot") = 0 := by
  constructor <;> rfl

/-! ## C6 and C7: the bucketing loop -/

theorem nodup_snoc {α : Type} {l : List α} {a : α} (h : l.Nodup) (ha : a ∉ l) :
    (l ++ [a]).Nodup := by
  simp [List.nodup_append, h, ha]

/-- Bucket members come from the `packages` keys. -/
theorem mem_buckets_keys (pkgs : List (Str × PkgEntry)) (p : Str) :
    (p ∈ (buildBuckets pkgs).restartable → p ∈ pkgs.map Prod.fst) ∧
    (p ∈ (buildBuckets pkgs).nonrestartable → p ∈ pkgs.map Prod.fst) := by
  induction pkgs with
  | nil => constructor <;> intro h <;> simp [buildBuckets] at h
  | cons pe rest ih =>
    by_cases h1 : pe.2.initscripts.length > 0
    · constructor <;> intro h
      · simp only [buildBuckets, if_pos h1] at h
        rcases List.mem_cons.mp h with h | h
        · simp [h]
        · simp [ih.1 h]
      · simp only [buildBuckets, if_pos h1] at h
        simp [ih.2 h]
    · by_cases h2 : pe.2.systemdservice.length > 0
      · constructor <;> intro h
        · simp only [buildBuckets, if_neg h1, if_pos h2] at h
          rcases List.mem_cons.mp h with h | h
          · simp [h]
          · simp [ih.1 h]
        · simp only [buildBuckets, if_neg h1, if_pos h2] at h
          simp [ih.2 h]
      · constructor <;> intro h
        · simp only [buildBuckets, if_neg h1, if_neg h2] at h
          simp [ih.1 h]
        · simp only [buildBuckets, if_neg h1, if_neg h2] at h
          rcases List.mem_cons.mp h with h | h
          · simp [h]
          · simp [ih.2 h]

/-- With unique keys, a package is in `restartable` exactly when its
entry has an init script or a systemd service, and in `nonrestartable`
exactly when it has neither. -/
theorem buckets_mem_iff (pkgs : List (Str × PkgEntry))
    (hnd : (pkgs.map Prod.fst).Nodup) (p : Str) (e : PkgEntry)
    (hm : (p, e) ∈ pkgs) :
    (p ∈ (buildBuckets pkgs).restartable ↔
      (e.initscripts ≠ [] ∨ e.systemdservice ≠ [])) ∧
    (p ∈ (buildBuckets pkgs).nonrestartable ↔
      (e.initscripts = [] ∧ e.systemdservice = [])) := by
  induction pkgs with
  | nil => cases hm
  | cons pe rest ih =>
    obtain ⟨q, f⟩ := pe
    simp only [List.map_cons, List.nodup_cons] at hnd
    rcases List.mem_cons.mp hm with heq | hmem
    · injection heq with hpq hef
      subst hpq; subst hef
      by_cases h1 : e.initscripts.length > 0
      · constructor
        · simp only [buildBuckets, if_pos h1]
          exact iff_of_true (List.mem_cons_self _ _)
            (Or.inl (List.length_pos.mp h1))
        · simp only [buildBuckets, if_pos h1]
          exact iff_of_false (fun hc => hnd.1 ((mem_buckets_keys rest p).2 hc))
            (fun hc => (List.length_pos.mp h1) hc.1)
      · by_cases h2 : e.systemdservice.length > 0
        · constructor
          · simp only [buildBuckets, if_neg h1, if_pos h2]
            exact iff_of_true (List.mem_cons_self _ _)
              (Or.inr (List.length_pos.mp h2))
          · simp only [buildBuckets, if_neg h1, if_pos h2]
            exact iff_of_false (fun hc => hnd.1 ((mem_buckets_keys rest p).2 hc))
              (fun hc => (List.length_pos.mp h2) hc.2)
        · have hi : e.initscripts = [] := by
            rcases List.eq_nil_or_concat e.initscripts with h | ⟨l, a, h⟩
            · exact h
            · exact absurd (by simp [h]) h1
          have hs : e.systemdservice = [] := by
            rcases List.eq_nil_or_concat e.systemdservice with h | ⟨l, a, h⟩
            · exact h
            · exact absurd (by simp [h]) h2
          constructor
          · simp only [buildBuckets, if_neg h1, if_neg h2]
            exact iff_of_false (fun hc => hnd.1 ((mem_buckets_keys rest p).1 hc))
              (by simp [hi, hs])
          · simp only [buildBuckets, if_neg h1, if_neg h2]
            exact iff_of_true (List.mem_cons_self _ _) ⟨hi, hs⟩
    · have hpk : p ∈ rest.map Prod.fst := by
        have := List.mem_map_of_mem Prod.fst hmem
        simpa using this
      have hpq : p ≠ q := fun hc => hnd.1 (hc ▸ hpk)
      obtain ⟨ih1, ih2⟩ := ih hnd.2 hmem
      by_cases h1 : f.initscripts.length > 0
      · constructor
        · simp only [buildBuckets, if_pos h1]
          rw [List.mem_cons]
          simp [hpq, ih1]
        · simp only [buildBuckets, if_pos h1]
          exact ih2
      · by_cases h2 : f.systemdservice.length > 0
        · constructor
          · simp only [buildBuckets, if_neg h1, if_pos h2]
            rw [List.mem_cons]
            simp [hpq, ih1]
          · simp only [buildBuckets, if_neg h1, if_pos h2]
            exact ih2
        · constructor
          · simp only [buildBuckets, if_neg h1, if_neg h2]
            exact ih1
          · simp only [buildBuckets, if_neg h1, if_neg h2]
            rw [List.mem_cons]
            simp [hpq, ih2]

theorem alistLookup_none {α : Type} {l : List (Str × α)} {k : Str}
    (h : alistLookup l k = none) : k ∉ l.map Prod.fst := by
  unfold alistLookup at h
  cases hf : l.find? (fun p => p.1 == k) with
  | some pe => rw [hf] at h; cases h
  | none =>
    intro hk
    obtain ⟨pe, hpe, rfl⟩ := List.mem_map.mp hk
    have := List.find?_eq_none.mp hf pe hpe
    simp at this

theorem alistUpdate_keys {α : Type} (l : List (Str × α)) (k : Str) (f : α → α) :
    (alistUpdate l k f).map Prod.fst = l.map Prod.fst := by
  unfold alistUpdate
  rw [List.map_map]
  apply List.map_congr_left
  intro pe _
  dsimp only [Function.comp]
  split <;> rfl

/-- The record loop never duplicates a key of the `packages`
dictionary. -/
theorem processRecord_keys_nodup (env : Env) (bl ig : List Str) (st : BuildState)
    (r : DRec) (h : (st.packages.map Prod.fst).Nodup) :
    ((processRecord env bl ig st r).packages.map Prod.fst).Nodup := by
  unfold processRecord
  repeat' (first | split | dsimp only)
  all_goals first
    | exact h
    | (rw [alistUpdate_keys]; exact h)
    | (rename_i heq
       rw [List.map_append]
       exact nodup_snoc h (alistLookup_none heq))

theorem buildPackages_keys_nodup (env : Env) (ig bl : List Str) (ex : List Nat)
    (files : List DRec) :
    ((buildPackages env ig bl ex files).packages.map Prod.fst).Nodup := by
  unfold buildPackages
  exact foldl_preserve (fun st r hst => processRecord_keys_nodup env bl ig st r hst)
    files ⟨[], [], ex⟩ (by simp)

theorem pkgQueryLoop_keys (env : Env) (a b c : Str) (pkgs : List (Str × PkgEntry)) :
    (pkgQueryLoop env a b c pkgs).map Prod.fst = pkgs.map Prod.fst := by
  unfold pkgQueryLoop
  rw [List.map_map]
  rfl

theorem fallbackLoop_keys (env : Env) (pkgs : List (Str × PkgEntry)) :
    (fallbackLoop env pkgs).map Prod.fst = pkgs.map Prod.fst := by
  unfold fallbackLoop
  rw [List.map_map]
  apply List.map_congr_left
  intro pe _
  dsimp only [Function.comp]
  repeat' split
  all_goals rfl

/-- C6: every candidate package that reaches the bucketing loop lands
in `restartable` exactly when it has an init script or systemd service,
in `nonrestartable` exactly when it has neither, and never in both. -/
theorem C6_bucket_partition (env : Env) (cmdq sysf sysd : Str) (ig bl : List Str)
    (ex : List Nat) (files : List DRec) (p : Str) (e : PkgEntry)
    (hm : (p, e) ∈ fallbackLoop env (pkgQueryLoop env cmdq sysf sysd
      (buildPackages env ig bl ex files).packages)) :
    (p ∈ (buildBuckets (fallbackLoop env (pkgQueryLoop env cmdq sysf sysd
        (buildPackages env ig bl ex files).packages))).restartable ↔
      (e.initscripts ≠ [] ∨ e.systemdservice ≠ [])) ∧
    (p ∈ (buildBuckets (fallbackLoop env (pkgQueryLoop env cmdq sysf sysd
        (buildPackages env ig bl ex files).packages))).nonrestartable ↔
      (e.initscripts = [] ∧ e.systemdservice = [])) ∧
    ¬(p ∈ (buildBuckets (fallbackLoop env (pkgQueryLoop env cmdq sysf sysd
        (buildPackages env ig bl ex files).packages))).restartable ∧
      p ∈ (buildBuckets (fallbackLoop env (pkgQueryLoop env cmdq sysf sysd
        (buildPackages env ig bl ex files).packages))).nonrestartable) := by
  have hnd : ((fallbackLoop env (pkgQueryLoop env cmdq sysf sysd
      (buildPackages env ig bl ex files).packages)).map Prod.fst).Nodup := by
    rw [fallbackLoop_keys, pkgQueryLoop_keys]
    exact buildPackages_keys_nodup env ig bl ex files
  obtain ⟨h1, h2⟩ := buckets_mem_iff _ hnd p e hm
  refine ⟨h1, h2, ?_⟩
  rintro ⟨ha, hb⟩
  rcases h1.mp ha with hi | hs
  · exact hi (h2.mp hb).1
  · exact hs (h2.mp hb).2

/-- Environment of specification Scenario D: one process runs nginx,
whose package installs a single non-oneshot systemd unit. -/
def envC6 : Env := { env0 with
  readlink := fun s => if s = str "/proc/1/exe" then some (str "/usr/sbin/nginx") else none
  pkg_owner := fun s => if s = str "/usr/sbin/nginx" then str "nginx" else []
  popen_lines := fun c =>
    if c = str "dpkg-query --listfiles nginx" then
      [str "/lib/systemd/system/nginx.service\n"]
    else []
  path_exists := fun p => p == str "/bin/systemd"
  file_lines := fun p =>
    if p = str "/lib/systemd/system/nginx.service" then
      some [str "[Service]\n", str "ExecStart=/usr/sbin/nginx\n"]
    else none }

/-- Witness for C6: nginx lands in `restartable` and not in
`nonrestartable`. -/
theorem C6_bucket_partition_witness :
    (str "nginx") ∈ (buildBuckets (fallbackLoop envC6 (pkgQueryLoop envC6
      (str "dpkg-query --listfiles ") (str "/lib/systemd/system/") (str "/bin/systemd")
      (buildPackages envC6 [] [] []
        [(str "nginx", 1, str "/usr/lib/libssl.so.1")]).packages))).restartable ∧
    ¬((str "nginx") ∈ (buildBuckets (fallbackLoop envC6 (pkgQueryLoop envC6
      (str "dpkg-query --listfiles ") (str "/lib/systemd/system/") (str "/bin/systemd")
      (buildPackages envC6 [] [] []
        [(str "nginx", 1, str "/usr/lib/libssl.so.1")]).packages))).restartable ∧
      (str "nginx") ∈ (buildBuckets (fallbackLoop envC6 (pkgQueryLoop envC6
      (str "dpkg-query --listfiles ") (str "/lib/systemd/system/") (str "/bin/systemd")
      (buildPackages envC6 [] [] []
        [(str "nginx", 1, str "/usr/lib/libssl.so.1")]).packages))).nonrestartable) := by
  have h := C6_bucket_partition envC6 (str "dpkg-query --listfiles ")
    (str "/lib/systemd/system/") (str "/bin/systemd") [] [] []
    [(str "nginx", 1, str "/usr/lib/libssl.so.1")] (str "nginx")
    ⟨[], [str "nginx.service"],
     [str "\t1 /usr/sbin/nginx (file: /usr/lib/libssl.so.1)"], str "nginx"⟩
    (by decide)
  exact ⟨h.1.mpr (Or.inr (by decide)), h.2.2⟩

/-- C7 counterexample: a package owning both an init script `foo` and a
systemd unit `bar.service` produces no `systemctl restart` command for
the unit, because the `elif` of src line 598 is skipped whenever init
scripts exist. -/
theorem C7_counterexample :
    (str "bar.service") ∈
      (PkgEntry.mk [str "foo"] [str "bar.service"] [] (str "p")).systemdservice ∧
    (str "systemctl restart bar.service") ∉
      (buildBuckets [(str "p", PkgEntry.mk [str "foo"] [str "bar.service"] []
        (str "p"))]).restartservicecommands := by
  decide

/-- C7 (amended): each candidate package yields one
`service <name> restart` command per init script; and, only when it has
no init scripts, one `systemctl restart <name>` command per systemd
unit (init scripts take priority, suppressing the unit commands). -/
theorem C7_restart_commands (pkgs : List (Str × PkgEntry)) (p : Str) (e : PkgEntry)
    (hm : (p, e) ∈ pkgs) :
    (∀ s ∈ e.initscripts,
      (str "service " ++ s ++ str " restart") ∈
        (buildBuckets pkgs).restartinitcommands) ∧
    (e.initscripts = [] → ∀ s ∈ e.systemdservice,
      (str "systemctl restart " ++ s) ∈
        (buildBuckets pkgs).restartservicecommands) := by
  induction pkgs with
  | nil => cases hm
  | cons pe rest ih =>
    rcases List.mem_cons.mp hm with heq | hmem
    · obtain ⟨q, f⟩ := pe
      injection heq with hpq hef
      subst hpq; subst hef
      constructor
      · intro s hs
        have h1 : e.initscripts.length > 0 :=
          List.length_pos.mpr (fun hnil => by rw [hnil] at hs; cases hs)
        simp only [buildBuckets, if_pos h1]
        exact List.mem_append_left _ (List.mem_map.mpr ⟨s, hs, rfl⟩)
      · intro hnil s hs
        have h1 : ¬ e.initscripts.length > 0 := by simp [hnil]
        have h2 : e.systemdservice.length > 0 :=
          List.length_pos.mpr (fun h => by rw [h] at hs; cases hs)
        simp only [buildBuckets, if_neg h1, if_pos h2]
        exact List.mem_append_left _ (List.mem_map.mpr ⟨s, hs, rfl⟩)
    · obtain ⟨ih1, ih2⟩ := ih hmem
      by_cases h1 : pe.2.initscripts.length > 0
      · constructor
        · intro s hs
          simp only [buildBuckets, if_pos h1]
          exact List.mem_append_right _ (ih1 s hs)
        · intro hnil s hs
          simp only [buildBuckets, if_pos h1]
          exact ih2 hnil s hs
      · by_cases h2 : pe.2.systemdservice.length > 0
        · constructor
          · intro s hs
            simp only [buildBuckets, if_neg h1, if_pos h2]
            exact ih1 s hs
          · intro hnil s hs
            simp only [buildBuckets, if_neg h1, if_pos h2]
            exact List.mem_append_right _ (ih2 hnil s hs)
        · constructor
          · intro s hs
            simp only [buildBuckets, if_neg h1, if_neg h2]
            exact ih1 s hs
          · intro hnil s hs
            simp only [buildBuckets, if_neg h1, if_neg h2]
            exact ih2 hnil s hs

/-- Concrete packages for the C7 witness: one package with an init
script, one with only a systemd unit. -/
def pkgsC7w : List (Str × PkgEntry) :=
  [(str "a", ⟨[str "x"], [], [], str "a"⟩),
   (str "b", ⟨[], [str "y.service"], [], str "b"⟩)]

/-- Witness for C7 (amended): the two command forms are synthesized. -/
theorem C7_restart_commands_witness :
    (str "service x restart") ∈ (buildBuckets pkgsC7w).restartinitcommands ∧
    (str "systemctl restart y.service") ∈ (buildBuckets pkgsC7w).restartservicecommands :=
  ⟨(C7_restart_commands pkgsC7w (str "a") ⟨[str "x"], [], [], str "a"⟩
      (by decide)).1 (str "x") (by decide),
   (C7_restart_commands pkgsC7w (str "b") ⟨[], [str "y.service"], [], str "b"⟩
      (by decide)).2 rfl (str "y.service") (by decide)⟩

/-! ## C2: the empty-plan short circuit -/

/-- C2: whenever the supported-platform setup succeeds, the kernel
comparison finds a match (no kernel restart), the scan succeeds and the
record loop builds no package entry, `restartcheck` returns exactly the
fixed literal instead of a plan. -/
theorem C2_no_packages_literal (env : Env) (ignorelist blacklist : Option (List Str))
    (excludepid : Option (List Nat)) (verbose : Bool) (q f s : Str) (vs : List Str)
    (files : List DRec)
    (hfam : famParams env = some (q, f, s, some vs))
    (hk : kernelRestartCheck env (env.cmd_run (str "uname -a")) vs = some false)
    (hdf : _deleted_files env = some files)
    (hpk : (buildPackages env
      (normalizeListArg ignorelist [str "screen", str "systemd"])
      (normalizeListArg blacklist []) (normalizePidArg excludepid) files).packages = []) :
    restartcheck env ignorelist blacklist excludepid verbose =
      some (.str (str "No packages seem to need to be restarted.")) := by
  unfold restartcheck
  rw [hfam]
  show restartcheckCore env q f s (some vs) ignorelist blacklist excludepid verbose = _
  unfold restartcheckCore
  simp only [hk, hdf]
  simp [hpk]

/-- A Debian environment whose newest installed kernel is the running
one and where no process maps a deleted file. -/
def envC2 : Env := { env0 with
  cmd_run := fun c =>
    if c = str "dpkg --get-selections linux-image-*" then
      str "linux-image-4.9.0-8-amd64\t\tinstall\n"
    else if c = str "apt-cache policy linux-image-4.9.0-8-amd64" then
      str "  Installed: 4.9.0-8\n"
    else if c = str "uname -a" then
      str "Linux host 4.9.0-8 x86_64 GNU/Linux"
    else [] }

/-- Witness for C2. -/
theorem C2_no_packages_literal_witness :
    restartcheck envC2 none none none true =
      some (.str (str "No packages seem to need to be restarted.")) :=
  C2_no_packages_literal envC2 none none none true
    (str "dpkg-query --listfiles ") (str "/lib/systemd/system/") (str "/bin/systemd")
    [str "4.9.0-8"] [] (by rfl) (by rfl) (by rfl) (by rfl)

/-! ## C10: the default ignore list -/

/-- The C2 environment extended with one process running `screen`,
which maps a deleted library owned by package `screen`. -/
def envScreen : Env := { envC2 with
  procs := [some (5, str "screen")]
  maps_fd := fun pid => if pid = 5 then some ([sampleMapline], []) else none
  readlink := fun p => if p = str "/proc/5/exe" then some (str "/usr/bin/screen") else none
  pkg_owner := fun p => if p = str "/usr/bin/screen" then str "screen" else [] }

/-- C10: the defaults `['screen', 'systemd']` are used exactly when the
caller passes no (or an empty) ignore list; a non-empty caller list
replaces them entirely, so package `screen` can then reach the final
plan. -/
theorem C10_default_ignorelist :
    (normalizeListArg none [str "screen", str "systemd"] =
        [str "screen", str "systemd"] ∧
     normalizeListArg (some []) [str "screen", str "systemd"] =
        [str "screen", str "systemd"]) ∧
    (∀ l : List Str, l ≠ [] →
      normalizeListArg (some l) [str "screen", str "systemd"] = l) ∧
    restartcheck envScreen (some [str "foo"]) none none false =
      some (.lst [str "screen"]) := by
  refine ⟨⟨rfl, rfl⟩, ?_, ?_⟩
  · intro l hl
    cases l with
    | nil => exact absurd rfl hl
    | cons a t => rfl
  · rfl

/-- Witness for C10 at a concrete non-empty caller list. -/
theorem C10_default_ignorelist_witness :
    normalizeListArg (some [str "foo"]) [str "screen", str "systemd"] = [str "foo"] :=
  C10_default_ignorelist.2.1 [str "foo"] (by decide)
